import Mathlib

/-!
# Verification of the policy-based financial calculator

Shallow embedding of `src/lib/include/CalculationPolicies.hpp` and the
forwarding wrapper `src/lib/include/Calculator.hpp`.

Modelling conventions:
* C++ `double` values are modelled as `ℚ` (exact arithmetic).
* `throw std::invalid_argument(msg)` is modelled as `Except.error msg`;
  the message strings are the ones from the source.
* Text written to `std::cout` is modelled as a list of emitted lines that
  each `calculate` returns alongside its numeric result (a writer effect);
  the emission points follow the source statement by statement.  The exact
  numeric formatting of `iostream` is not reproduced (Lean's `toString` on
  `ℚ` is used), which is irrelevant to the properties proved: they only
  look at whether and how many lines are emitted.
* `std::pow(x, static_cast<double>(k))` for a non-negative integral `k` is
  modelled as the exact power `x ^ k`.
-/

namespace PolicyCalc

/-- Result of one policy `calculate` call: either the thrown
`std::invalid_argument` message, or the returned `double` together with the
lines the call wrote to `std::cout`. -/
abbrev CalcResult := Except String (ℚ × List String)

namespace PresentValuePolicy

/-- One iteration of the `for` loop in `PresentValuePolicy::calculate`:
given the accumulated sum and output so far and the pair (zero-based index
`t`, cash flow), it adds `cash_flows[t] / (1 + discount_rate)^(t+1)` and
prints one line. -/
def loopBody (discount_rate : ℚ) (acc : ℚ × List String) (p : ℕ × ℚ) :
    ℚ × List String :=
  let discount_factor := (1 + discount_rate) ^ (p.1 + 1)
  (acc.1 + p.2 / discount_factor,
    acc.2 ++ ["  Period " ++ toString (p.1 + 1) ++ ": CF=" ++
      toString p.2 ++ ", Discount Factor=" ++ toString discount_factor ++
      ", PV=" ++ toString (p.2 / discount_factor)])

/-- Embedding of `PresentValuePolicy::calculate` from
`src/lib/include/CalculationPolicies.hpp`: validates, prints a header line,
then folds `loopBody` over the indexed cash flows (the `for` loop with its
running `present_value` accumulator), and finally prints the total and
returns it. -/
def calculate (discount_rate : ℚ) (cash_flows : List ℚ) : CalcResult :=
  if cash_flows.isEmpty then
    Except.error "Cash flows vector cannot be empty"
  else if discount_rate ≤ -1 then
    Except.error "Discount rate must be greater than -1"
  else
    let out0 : List String :=
      ["PresentValuePolicy: Calculating PV with discount rate " ++
        toString discount_rate ++ " for " ++ toString cash_flows.length ++
        " cash flows"]
    let r := cash_flows.enum.foldl (loopBody discount_rate) (0, out0)
    Except.ok (r.1, r.2 ++ ["  Total Present Value: " ++ toString r.1])

end PresentValuePolicy

namespace FutureValuePolicy

/-- Embedding of `FutureValuePolicy::calculate` from
`src/lib/include/CalculationPolicies.hpp`: validates, prints a header,
computes `principal * (1 + interest_rate)^periods`, prints the growth
factor and the result, and returns it.  `periods` is the C++ `int`
argument, hence `ℤ`; after validation it is non-negative so the power is
taken at `periods.toNat`. -/
def calculate (principal interest_rate : ℚ) (periods : ℤ) : CalcResult :=
  if principal < 0 then
    Except.error "Principal must be non-negative"
  else if periods < 0 then
    Except.error "Periods must be non-negative"
  else if interest_rate ≤ -1 then
    Except.error "Interest rate must be greater than -1"
  else
    let growth := (1 + interest_rate) ^ periods.toNat
    let future_value := principal * growth
    Except.ok (future_value,
      ["FutureValuePolicy: Calculating FV of principal=" ++
          toString principal ++ " at rate=" ++ toString interest_rate ++
          " over " ++ toString periods ++ " periods",
        "  Growth Factor: " ++ toString growth,
        "  Future Value: " ++ toString future_value])

end FutureValuePolicy

namespace InterestRateConversionPolicy

/-- Embedding of `InterestRateConversionPolicy::calculate` from
`src/lib/include/CalculationPolicies.hpp`: validates, prints a header,
computes `rate_per_period = nominal_rate / compounding_periods` and
`(1 + rate_per_period)^compounding_periods - 1`, prints both, and returns
the effective rate.  There is no special case for
`compounding_periods == 1`: the power formula is always used. -/
def calculate (nominal_rate : ℚ) (compounding_periods : ℤ) : CalcResult :=
  if compounding_periods ≤ 0 then
    Except.error "Compounding periods must be positive"
  else if nominal_rate ≤ -1 then
    Except.error "Nominal rate must be greater than -1"
  else
    let rate_per_period := nominal_rate / (compounding_periods : ℚ)
    let effective_rate :=
      (1 + rate_per_period) ^ compounding_periods.toNat - 1
    Except.ok (effective_rate,
      ["InterestRateConversionPolicy: Converting nominal rate=" ++
          toString nominal_rate ++ " with " ++ toString compounding_periods ++
          " compounding periods",
        "  Rate per period: " ++ toString rate_per_period,
        "  Effective Annual Rate: " ++ toString effective_rate])

end InterestRateConversionPolicy

/-- The `present_value` entry point of §6: `Calculator<PresentValuePolicy>`
(`src/lib/include/Calculator.hpp`) forwards its arguments unchanged to the
policy. -/
def present_value (discount_rate : ℚ) (cash_flows : List ℚ) : CalcResult :=
  PresentValuePolicy.calculate discount_rate cash_flows

/-- The `future_value` entry point of §6: `Calculator<FutureValuePolicy>`
forwards its arguments unchanged to the policy. -/
def future_value (principal interest_rate : ℚ) (periods : ℤ) : CalcResult :=
  FutureValuePolicy.calculate principal interest_rate periods

/-- The `effective_annual_rate` entry point of §6:
`Calculator<InterestRateConversionPolicy>` forwards its arguments unchanged
to the policy. -/
def effective_annual_rate (nominal_rate : ℚ) (compounding_periods : ℤ) :
    CalcResult :=
  InterestRateConversionPolicy.calculate nominal_rate compounding_periods

/-- The numeric value a call returns (discarding the emitted text). -/
def calcValue (r : CalcResult) : Except String ℚ := r.map Prod.fst

/-- The lines a call wrote to `std::cout` (none when it threw). -/
def outLines : CalcResult → List String
  | Except.error _ => []
  | Except.ok p => p.2

/-! ## A fragment of IEEE-754 binary64 semantics

The main embedding above uses exact arithmetic.  The source, however,
computes with C++ `double`, where every arithmetic result is rounded to 53
significand bits (round to nearest, ties to even).  The two definitions
below model exactly that rounding for the values that arise in the one
computation where it is observable in this development:
`InterestRateConversionPolicy::calculate` at `compounding_periods == 1`.
Overflow, underflow to subnormals and NaNs do not arise at the inputs
considered, so the model omits them. -/

/-- Round a rational to the nearest integer, ties to even. -/
def rne (y : ℚ) : ℤ :=
  let n := ⌊y⌋
  let f := y - n
  if f < 1/2 then n
  else if 1/2 < f then n + 1
  else if n % 2 = 0 then n else n + 1

/-- The binary64 rounding of a positive real lying in the binade
`[2^e, 2^(e+1))`: there the unit in the last place is `2^(e-52)`, and the
53-bit significand is rounded to nearest, ties to even.  For such inputs
this is exactly IEEE-754 binary64 rounding (overflow and subnormals are
out of range here). -/
def flAt (e : ℤ) (x : ℚ) : ℚ := (rne (x / 2 ^ (e - 52)) : ℚ) * 2 ^ (e - 52)

/-- The IEEE-754 binary64 evaluation of the expression that
`InterestRateConversionPolicy::calculate` computes when
`compounding_periods == 1`:
`std::pow(1.0 + nominal_rate / 1, 1.0) - 1.0`, for a representable
`nominal_rate` with `0 ≤ nominal_rate < 1`.  Division by `1.0` is exact;
the addition `1.0 + rate_per_period` has its real value in the binade
`[1, 2) = [2^0, 2^1)` and rounds there (`flAt 0`); `std::pow(x, 1.0)`
returns `x` exactly; and the final subtraction of two doubles within a
factor of two of each other is exact by Sterbenz's lemma.  So exactly one
operation rounds. -/
def fpEffectiveRateOne (nominal_rate : ℚ) : ℚ :=
  let rate_per_period := nominal_rate / 1
  let base := flAt 0 (1 + rate_per_period)
  let power := base ^ (1 : ℕ)
  power - 1

/-! ## Supporting lemmas about the embedded functions -/

namespace PresentValuePolicy

lemma fst_foldl_loopBody (dr : ℚ) :
    ∀ (l : List (ℕ × ℚ)) (a : ℚ) (s : List String),
      (l.foldl (loopBody dr) (a, s)).1
        = a + (l.map fun p => p.2 / (1 + dr) ^ (p.1 + 1)).sum := by
  intro l
  induction l with
  | nil => intro a s; simp
  | cons x xs ih =>
      intro a s
      simp only [List.foldl_cons, loopBody, List.map_cons, List.sum_cons]
      rw [ih, add_assoc]

lemma foldl_snd_prefix {α : Type} (f : ℚ × List String → α → ℚ × List String)
    (hf : ∀ acc p, ∃ u, (f acc p).2 = acc.2 ++ u) :
    ∀ (l : List α) (a : ℚ) (s : List String),
      ∃ t, (l.foldl f (a, s)).2 = s ++ t := by
  intro l
  induction l with
  | nil => intro a s; exact ⟨[], by simp⟩
  | cons x xs ih =>
      intro a s
      rw [List.foldl_cons]
      obtain ⟨u, hu⟩ := hf (a, s) x
      obtain ⟨t, ht⟩ := ih (f (a, s) x).1 (f (a, s) x).2
      rw [Prod.mk.eta] at ht
      exact ⟨u ++ t, by rw [ht, hu, List.append_assoc]⟩

lemma snd_foldl_loopBody (dr : ℚ) :
    ∀ (l : List (ℕ × ℚ)) (a : ℚ) (s : List String),
      ∃ t, (l.foldl (loopBody dr) (a, s)).2 = s ++ t :=
  foldl_snd_prefix (loopBody dr) (fun _ _ => ⟨_, rfl⟩)

lemma calculate_value (dr : ℚ) (cfs : List ℚ) (h1 : cfs ≠ [])
    (h2 : -1 < dr) :
    calcValue (calculate dr cfs)
      = Except.ok ((cfs.enum.map fun p => p.2 / (1 + dr) ^ (p.1 + 1)).sum) := by
  have hne : cfs.isEmpty = false := by
    simp [List.isEmpty_iff, h1]
  have hr : ¬ dr ≤ -1 := not_le.mpr h2
  simp only [calculate, hne, Bool.false_eq_true, if_false, hr, calcValue,
    Except.map]
  rw [fst_foldl_loopBody]
  simp

lemma calculate_out_ne_nil (dr : ℚ) (cfs : List ℚ) (h1 : cfs ≠ [])
    (h2 : -1 < dr) :
    outLines (calculate dr cfs) ≠ [] := by
  have hne : cfs.isEmpty = false := by
    simp [List.isEmpty_iff, h1]
  have hr : ¬ dr ≤ -1 := not_le.mpr h2
  simp only [calculate, hne, Bool.false_eq_true, if_false, hr, outLines]
  obtain ⟨t, ht⟩ := snd_foldl_loopBody dr cfs.enum 0
    ["PresentValuePolicy: Calculating PV with discount rate " ++
      toString dr ++ " for " ++ toString cfs.length ++ " cash flows"]
  rw [ht]
  simp

end PresentValuePolicy

namespace FutureValuePolicy

lemma fv_calculate_ok (P r : ℚ) (n : ℤ) (hP : 0 ≤ P) (hn : 0 ≤ n)
    (hr : -1 < r) :
    calculate P r n
      = Except.ok (P * (1 + r) ^ n.toNat,
          ["FutureValuePolicy: Calculating FV of principal=" ++
              toString P ++ " at rate=" ++ toString r ++
              " over " ++ toString n ++ " periods",
            "  Growth Factor: " ++ toString ((1 + r) ^ n.toNat),
            "  Future Value: " ++ toString (P * (1 + r) ^ n.toNat)]) := by
  simp only [calculate, if_neg (not_lt.mpr hP), if_neg (not_lt.mpr hn),
    if_neg (not_le.mpr hr)]

end FutureValuePolicy

namespace InterestRateConversionPolicy

lemma ear_calculate_ok (r : ℚ) (n : ℤ) (hn : 0 < n) (hr : -1 < r) :
    calculate r n
      = Except.ok ((1 + r / (n : ℚ)) ^ n.toNat - 1,
          ["InterestRateConversionPolicy: Converting nominal rate=" ++
              toString r ++ " with " ++ toString n ++ " compounding periods",
            "  Rate per period: " ++ toString (r / (n : ℚ)),
            "  Effective Annual Rate: " ++
              toString ((1 + r / (n : ℚ)) ^ n.toNat - 1)]) := by
  simp only [calculate, if_neg (not_le.mpr hn), if_neg (not_le.mpr hr)]

end InterestRateConversionPolicy

lemma enumFrom_map_mul (k : ℚ) :
    ∀ (l : List ℚ) (n : ℕ),
      (l.map fun c => k * c).enumFrom n
        = (l.enumFrom n).map fun p => (p.1, k * p.2) := by
  intro l
  induction l with
  | nil => intro n; rfl
  | cons x xs ih => intro n; simp [List.enumFrom, ih]

lemma pv_sum_scale (dr k : ℚ) (cfs : List ℚ) :
    ((cfs.map fun c => k * c).enum.map
        fun p => p.2 / (1 + dr) ^ (p.1 + 1)).sum
      = k * (cfs.enum.map fun p => p.2 / (1 + dr) ^ (p.1 + 1)).sum := by
  simp only [List.enum, enumFrom_map_mul, List.map_map, Function.comp_def,
    mul_div_assoc]
  exact List.sum_map_mul_left _ _ _

lemma pv_error_iff (dr : ℚ) (cfs : List ℚ) :
    (∃ msg, present_value dr cfs = Except.error msg)
      ↔ cfs = [] ∨ dr ≤ -1 := by
  unfold present_value PresentValuePolicy.calculate
  split_ifs with h1 h2
  · simp only [List.isEmpty_iff] at h1
    simp [h1]
  · simp [h2]
  · simp only [List.isEmpty_iff] at h1
    simp [h1, h2]

lemma pv_ok_iff (dr : ℚ) (cfs : List ℚ) :
    (∃ v tr, present_value dr cfs = Except.ok (v, tr))
      ↔ ¬(cfs = [] ∨ dr ≤ -1) := by
  unfold present_value PresentValuePolicy.calculate
  split_ifs with h1 h2
  · simp only [List.isEmpty_iff] at h1
    simp [h1]
  · simp [h2]
  · simp only [List.isEmpty_iff] at h1
    simp [h1, h2]

lemma fv_error_iff (P r : ℚ) (n : ℤ) :
    (∃ msg, future_value P r n = Except.error msg)
      ↔ P < 0 ∨ n < 0 ∨ r ≤ -1 := by
  unfold future_value FutureValuePolicy.calculate
  split_ifs with h1 h2 h3
  · simp [h1]
  · simp [h2]
  · simp [h3]
  · simp [h1, h2, h3]

lemma fv_ok_iff (P r : ℚ) (n : ℤ) :
    (∃ v tr, future_value P r n = Except.ok (v, tr))
      ↔ ¬(P < 0 ∨ n < 0 ∨ r ≤ -1) := by
  unfold future_value FutureValuePolicy.calculate
  split_ifs with h1 h2 h3
  · simp [h1]
  · simp [h2]
  · simp [h3]
  · simp [h1, h2, h3]

lemma ear_error_iff (r : ℚ) (n : ℤ) :
    (∃ msg, effective_annual_rate r n = Except.error msg)
      ↔ n ≤ 0 ∨ r ≤ -1 := by
  unfold effective_annual_rate InterestRateConversionPolicy.calculate
  split_ifs with h1 h2
  · simp [h1]
  · simp [h2]
  · simp [h1, h2]

lemma ear_ok_iff (r : ℚ) (n : ℤ) :
    (∃ v tr, effective_annual_rate r n = Except.ok (v, tr))
      ↔ ¬(n ≤ 0 ∨ r ≤ -1) := by
  unfold effective_annual_rate InterestRateConversionPolicy.calculate
  split_ifs with h1 h2
  · simp [h1]
  · simp [h2]
  · simp [h1, h2]

/-- In exact arithmetic the power formula at `compounding_periods = 1`
does return the nominal rate: `(1 + r/1)^1 - 1 = r`.  The divergence shown
for claim C1 is therefore purely a floating-point rounding effect. -/
lemma effectiveAnnualRate_one_exact (r : ℚ) (hr : -1 < r) :
    calcValue (effective_annual_rate r 1) = Except.ok r := by
  rw [effective_annual_rate,
    InterestRateConversionPolicy.ear_calculate_ok r 1 one_pos hr]
  simp [calcValue, Except.map]

/-- When the fractional part is below one half, `rne` rounds down to the
floor. -/
lemma rne_eq_floor (y : ℚ) (h : y - ⌊y⌋ < 1/2) : rne y = ⌊y⌋ := if_pos h

/-- Round-to-nearest fixes an integer shifted by less than half: the
workhorse for evaluating `rne` at the values arising below. -/
lemma rne_int_add (m : ℤ) (d : ℚ) (h0 : 0 ≤ d) (h1 : d < 1/2) :
    rne ((m : ℚ) + d) = m := by
  have hf : ⌊(m : ℚ) + d⌋ = m :=
    Int.floor_eq_iff.mpr ⟨le_add_of_nonneg_right h0,
      add_lt_add_left (h1.trans one_half_lt_one) _⟩
  have hc : ((m : ℚ) + d) - ↑⌊(m : ℚ) + d⌋ < 1/2 := by
    rw [hf, add_sub_cancel_left]
    exact h1
  rw [rne_eq_floor _ hc, hf]

lemma cast_two_pow (k : ℕ) : ((2 ^ k : ℤ) : ℚ) = (2:ℚ) ^ (k : ℤ) := by
  rw [Int.cast_pow, Int.cast_ofNat]
  exact (zpow_natCast 2 k).symm

/-- Rounding `1 + 2⁻⁶⁰` in the binade of `1` yields exactly `1`: the
addend is below half an ulp, so it is absorbed. -/
lemma flAt_one_add_small : flAt 0 (1 + (2:ℚ) ^ (-60 : ℤ)) = 1 := by
  have hne : (2:ℚ) ≠ 0 := two_ne_zero
  have hd8 : (0:ℚ) < 2 ^ (-8 : ℤ) := zpow_pos two_pos _
  have hd8h : (2:ℚ) ^ (-8 : ℤ) < 1/2 := by
    rw [zpow_neg]
    norm_num
  have e2 : (-60 : ℤ) + 52 = -8 := by decide
  have hdiv : (1 + (2:ℚ) ^ (-60 : ℤ)) / 2 ^ ((0:ℤ) - 52)
      = ((2 ^ 52 : ℤ) : ℚ) + 2 ^ (-8 : ℤ) := by
    rw [zero_sub, div_eq_mul_inv, ← zpow_neg, neg_neg, add_mul, one_mul,
      ← zpow_add₀ hne, e2, cast_two_pow, Nat.cast_ofNat]
  have hrne : rne (((2 ^ 52 : ℤ) : ℚ) + 2 ^ (-8 : ℤ)) = 2 ^ 52 :=
    rne_int_add _ _ hd8.le hd8h
  have e3 : (52 : ℤ) + ((0:ℤ) - 52) = 0 := by decide
  unfold flAt
  rw [hdiv, hrne, cast_two_pow, Nat.cast_ofNat, ← zpow_add₀ hne, e3,
    zpow_zero]

/-! ## The claims -/

/-- Claim C1 (code bug): the spec promises that `effective_annual_rate(r, 1)`
returns `r` bit-for-bit via a special case that bypasses the power formula
when `compounding_periods = 1`; `InterestRateConversionPolicy.calculate`
contains no such special case and always computes through the power
formula.  Under binary64 rounding that formula returns `0.0`, not the
input, at `nominal_rate = 2^(-60)`: the addition `1.0 + r` absorbs the
tiny rate (`fpEffectiveRateOne` is the rounded evaluation of the code's
expression).  `effectiveAnnualRate_one_exact` shows exact arithmetic would
mask this, so the divergence is purely a floating-point effect. -/
theorem C1_effectiveAnnualRate_one_not_bitExact :
    fpEffectiveRateOne ((2:ℚ) ^ (-60 : ℤ)) = 0
      ∧ (2:ℚ) ^ (-60 : ℤ) ≠ 0 := by
  constructor
  · simp only [fpEffectiveRateOne, div_one, pow_one]
    rw [flAt_one_add_small, sub_self]
  · exact ne_of_gt (zpow_pos two_pos _)

/-- Claim C2 is false as stated: with both preconditions violated
(`discount_rate = -2 ≤ -1` and empty cash flows), `present_value` reports
the cash-flow-emptiness error, not the rate-invalidity error the claim
requires. -/
theorem C2_counterexample :
    present_value (-2) [] = Except.error "Cash flows vector cannot be empty"
      ∧ "Cash flows vector cannot be empty"
          ≠ "Discount rate must be greater than -1" := by
  constructor
  · rfl
  · decide

/-- Claim C2 (amended): in `present_value` both validation checks run
before any computation, and the emptiness check has fixed precedence:
whenever the series is empty the empty-cash-flows error is reported (in
particular when the rate is also invalid), and the rate error is reported
exactly when the series is non-empty and the rate is invalid. -/
theorem C2_presentValue_check_precedence (r : ℚ) (cfs : List ℚ) :
    (cfs = [] →
      present_value r cfs
        = Except.error "Cash flows vector cannot be empty")
    ∧ (cfs ≠ [] → r ≤ -1 →
      present_value r cfs
        = Except.error "Discount rate must be greater than -1") := by
  constructor
  · intro h
    subst h
    rfl
  · intro h1 h2
    have hne : cfs.isEmpty = false := by simp [List.isEmpty_iff, h1]
    simp [present_value, PresentValuePolicy.calculate, hne, h2]

/-- Witness for `C2_presentValue_check_precedence` at concrete inputs. -/
theorem C2_presentValue_check_precedence_witness :
    present_value (-3) []
        = Except.error "Cash flows vector cannot be empty"
      ∧ present_value (-3) [42]
        = Except.error "Discount rate must be greater than -1" :=
  ⟨(C2_presentValue_check_precedence (-3) []).1 rfl,
   (C2_presentValue_check_precedence (-3) [42]).2 (by simp) (by norm_num)⟩

/-- Claim C3 is false as stated: the entry points emit text.  At the valid
input `discount_rate = 1/10`, `cash_flows = [100]`, `present_value` writes
a non-empty sequence of lines to `std::cout`. -/
theorem C3_counterexample :
    outLines (present_value (1/10) [100]) ≠ [] := by
  have h := PresentValuePolicy.calculate_out_ne_nil (1/10) [100]
    (by simp) (by norm_num)
  simpa [present_value] using h

/-- Claim C3 (amended): each of the three entry points computes its result
as a pure function of its arguments — the embedding returns the value
deterministically and touches no state — but it does emit text: every
successful call writes a non-empty trace to `std::cout`. -/
theorem C3_entry_points_emit_text (r P nr : ℚ) (cfs : List ℚ) (n m : ℤ) :
    (cfs ≠ [] → -1 < r → outLines (present_value r cfs) ≠ [])
    ∧ (0 ≤ P → 0 ≤ n → -1 < r → outLines (future_value P r n) ≠ [])
    ∧ (0 < m → -1 < nr → outLines (effective_annual_rate nr m) ≠ []) := by
  refine ⟨?_, ?_, ?_⟩
  · intro h1 h2
    have h := PresentValuePolicy.calculate_out_ne_nil r cfs h1 h2
    simpa [present_value] using h
  · intro hP hn hr
    rw [future_value, FutureValuePolicy.fv_calculate_ok P r n hP hn hr]
    simp [outLines]
  · intro hm hr
    rw [effective_annual_rate,
      InterestRateConversionPolicy.ear_calculate_ok nr m hm hr]
    simp [outLines]

/-- Witness for `C3_entry_points_emit_text` at concrete inputs. -/
theorem C3_entry_points_emit_text_witness :
    outLines (present_value (1/2) [10]) ≠ []
      ∧ outLines (future_value 1000 (1/2) 3) ≠ []
      ∧ outLines (effective_annual_rate (1/2) 4) ≠ [] :=
  ⟨(C3_entry_points_emit_text (1/2) 1000 (1/2) [10] 3 4).1
      (by simp) (by norm_num),
   (C3_entry_points_emit_text (1/2) 1000 (1/2) [10] 3 4).2.1
      (by norm_num) (by norm_num) (by norm_num),
   (C3_entry_points_emit_text (1/2) 1000 (1/2) [10] 3 4).2.2
      (by norm_num) (by norm_num)⟩

/-- Claim C4: each entry point signals `std::invalid_argument` iff one of
its preconditions is violated, and otherwise returns a value.  The guards
short-circuit before the formula, and an error call carries only the
message — no partial numeric result. -/
theorem C4_invalidInput_iff (dr P ir nr : ℚ) (cfs : List ℚ) (np nc : ℤ) :
    ((∃ msg, present_value dr cfs = Except.error msg)
        ↔ cfs = [] ∨ dr ≤ -1)
    ∧ ((∃ v tr, present_value dr cfs = Except.ok (v, tr))
        ↔ ¬(cfs = [] ∨ dr ≤ -1))
    ∧ ((∃ msg, future_value P ir np = Except.error msg)
        ↔ P < 0 ∨ np < 0 ∨ ir ≤ -1)
    ∧ ((∃ v tr, future_value P ir np = Except.ok (v, tr))
        ↔ ¬(P < 0 ∨ np < 0 ∨ ir ≤ -1))
    ∧ ((∃ msg, effective_annual_rate nr nc = Except.error msg)
        ↔ nc ≤ 0 ∨ nr ≤ -1)
    ∧ ((∃ v tr, effective_annual_rate nr nc = Except.ok (v, tr))
        ↔ ¬(nc ≤ 0 ∨ nr ≤ -1)) :=
  ⟨pv_error_iff dr cfs, pv_ok_iff dr cfs, fv_error_iff P ir np,
   fv_ok_iff P ir np, ear_error_iff nr nc, ear_ok_iff nr nc⟩

/-- Claim C5: for every discount rate `r > -1` and non-empty cash-flow
list, `present_value` returns `Σ cash_flows[i] / (1+r)^(i+1)` over the
zero-based index `i` (so no cash flow is discounted at exponent 0), and on
a single-element series it returns `CF / (1+r)`. -/
theorem C5_presentValue_formula (r : ℚ) (hr : -1 < r) :
    (∀ cfs : List ℚ, cfs ≠ [] →
      calcValue (present_value r cfs)
        = Except.ok
            ((cfs.enum.map fun p => p.2 / (1 + r) ^ (p.1 + 1)).sum))
    ∧ (∀ cf : ℚ,
      calcValue (present_value r [cf]) = Except.ok (cf / (1 + r))) := by
  constructor
  · intro cfs h1
    simp only [present_value]
    exact PresentValuePolicy.calculate_value r cfs h1 hr
  · intro cf
    have h := PresentValuePolicy.calculate_value r [cf] (by simp) hr
    simp only [present_value] at h ⊢
    rw [h]
    simp [List.enum, List.enumFrom]

/-- Witness for `C5_presentValue_formula`:
`PV(0.1, [100, 200]) = 100/1.1 + 200/1.1² = 31000/121` and
`PV(0.1, [100]) = 100/1.1 = 1000/11`. -/
theorem C5_presentValue_formula_witness :
    calcValue (present_value (1/10) [100, 200]) = Except.ok (31000/121)
      ∧ calcValue (present_value (1/10) [100]) = Except.ok (1000/11) := by
  constructor
  · rw [(C5_presentValue_formula (1/10) (by norm_num)).1 [100, 200]
      (by simp)]
    norm_num [List.enum, List.enumFrom]
  · rw [(C5_presentValue_formula (1/10) (by norm_num)).2 100]
    norm_num

/-- Claim C6: for every principal `P ≥ 0` and rate `r > -1`,
`future_value(P, r, 0)` returns exactly `P`.  (`(1+r)^0 = 1` and
`P * 1 = P` are exact in binary64 too, so the exact-arithmetic model is
faithful to the bit-for-bit claim here.) -/
theorem C6_futureValue_zero_periods (P r : ℚ) (hP : 0 ≤ P) (hr : -1 < r) :
    calcValue (future_value P r 0) = Except.ok P := by
  rw [future_value, FutureValuePolicy.fv_calculate_ok P r 0 hP le_rfl hr]
  simp [calcValue, Except.map]

/-- Witness for `C6_futureValue_zero_periods`. -/
theorem C6_futureValue_zero_periods_witness :
    calcValue (future_value 5 (1/2) 0) = Except.ok 5 :=
  C6_futureValue_zero_periods 5 (1/2) (by norm_num) (by norm_num)

/-- Claim C7: for every principal `P ≥ 0`, rate `r > -1` and integer
`n ≥ 0`, `future_value(P, r, n)` returns `P * (1+r)^n`. -/
theorem C7_futureValue_formula (P r : ℚ) (n : ℕ) (hP : 0 ≤ P)
    (hr : -1 < r) :
    calcValue (future_value P r (n : ℤ)) = Except.ok (P * (1 + r) ^ n) := by
  rw [future_value,
    FutureValuePolicy.fv_calculate_ok P r (n : ℤ) hP (Int.natCast_nonneg n) hr]
  simp [calcValue, Except.map]

/-- Witness for `C7_futureValue_formula`:
`FV(1000, 0.05, 2) = 1000 * 1.05² = 1102.5`. -/
theorem C7_futureValue_formula_witness :
    calcValue (future_value 1000 (1/20) ((2 : ℕ) : ℤ))
      = Except.ok (2205/2) := by
  rw [C7_futureValue_formula 1000 (1/20) 2 (by norm_num) (by norm_num)]
  norm_num

/-- Claim C8: for every nominal rate `r > -1` and integer `n > 0`,
`effective_annual_rate(r, n)` returns `(1 + r/n)^n - 1`, the per-period
rate being `r / n`. -/
theorem C8_effectiveAnnualRate_formula (r : ℚ) (n : ℕ) (hr : -1 < r)
    (hn : 0 < n) :
    calcValue (effective_annual_rate r (n : ℤ))
      = Except.ok ((1 + r / (n : ℚ)) ^ n - 1) := by
  rw [effective_annual_rate,
    InterestRateConversionPolicy.ear_calculate_ok r (n : ℤ)
      (by exact_mod_cast hn) hr]
  simp [calcValue, Except.map]

/-- Witness for `C8_effectiveAnnualRate_formula`:
`EAR(0.1, 2) = 1.05² - 1 = 41/400`. -/
theorem C8_effectiveAnnualRate_formula_witness :
    calcValue (effective_annual_rate (1/10) ((2 : ℕ) : ℤ))
      = Except.ok (41/400) := by
  rw [C8_effectiveAnnualRate_formula (1/10) 2 (by norm_num) (by norm_num)]
  norm_num

/-- Claim C9: `present_value` is homogeneous in the cash flows — scaling
every flow by `k` scales the returned present value by `k`. -/
theorem C9_presentValue_scaling (r k : ℚ) (cfs : List ℚ) (h1 : cfs ≠ [])
    (hr : -1 < r) :
    calcValue (present_value r (cfs.map fun c => k * c))
      = Except.map (fun v => k * v) (calcValue (present_value r cfs)) := by
  have h2 : cfs.map (fun c => k * c) ≠ [] := by simpa using h1
  simp only [present_value]
  rw [PresentValuePolicy.calculate_value r _ h2 hr,
    PresentValuePolicy.calculate_value r cfs h1 hr]
  simp [Except.map, pv_sum_scale]

/-- Witness for `C9_presentValue_scaling` at `k = 3`, `r = 0.1`,
`cash_flows = [100, 200]`. -/
theorem C9_presentValue_scaling_witness :
    calcValue (present_value (1/10) ([100, 200].map fun c => 3 * c))
      = Except.map (fun v => 3 * v)
          (calcValue (present_value (1/10) [100, 200])) :=
  C9_presentValue_scaling (1/10) 3 [100, 200] (by simp) (by norm_num)

/-- Claim C10: in `effective_annual_rate` the compounding-periods check
runs before the rate check: on an input violating both preconditions the
non-positive-compounding-periods error is the one signalled. -/
theorem C10_effectiveAnnualRate_check_order (r : ℚ) (n : ℤ) (hn : n ≤ 0)
    (hr : r ≤ -1) :
    effective_annual_rate r n
      = Except.error "Compounding periods must be positive" := by
  simp [effective_annual_rate, InterestRateConversionPolicy.calculate, hn]

/-- Witness for `C10_effectiveAnnualRate_check_order`. -/
theorem C10_effectiveAnnualRate_check_order_witness :
    effective_annual_rate (-2) 0
      = Except.error "Compounding periods must be positive" :=
  C10_effectiveAnnualRate_check_order (-2) 0 (by norm_num) (by norm_num)

end PolicyCalc
